import Mathlib

/-!
Shallow embedding of the voe-js client library (src/unnamed/part_000, the
single implementation file exporting the `VOE` and `VOEError` classes), for
checking the repository specification against the code.

The library is glue over HTTP: every public operation builds a request for
the axios HTTP client and normalizes failures into a typed `VOEError`.  The
embedding therefore models
  - the JavaScript values the code manipulates (`JsValue`), including the
    property-access and truthiness semantics the error classifier relies on;
  - the axios error shape (`JsError`: message, optional response, request
    flag) and the outcome of the underlying transport (`TransportOutcome`);
  - the three-way error classification that appears, textually identical,
    in the response interceptor installed in the constructor (source lines
    76-93) and in `requestWithErrorHandling` (source lines 279-297);
  - the composition of the two: a JSON-endpoint call goes through the
    shared client (whose interceptor classifies a failure first) and then
    through `requestWithErrorHandling`, whose catch block classifies again
    whatever reached it;
  - request construction for each JSON-endpoint operation (path and query
    parameters, with the API key installed as a default parameter by
    `axios.create` in the constructor) and for the direct upload
    (`uploadFile`, which posts through bare `axios.post`, bypassing the
    shared client);
  - axios default query-parameter serialization, which omits parameters
    whose value is null or undefined.
-/

namespace Voe

/-- JavaScript runtime values, as far as the code observes them: the JSON
body of a response can be null, a boolean, a number, a string, an array or
an object, and property access can additionally produce undefined. -/
inductive JsValue where
  | undefined
  | null
  | bool (b : Bool)
  | num (n : Int)
  | str (s : String)
  | arr (elems : List JsValue)
  | obj (fields : List (String × JsValue))

/-- JavaScript property access `v[k]`: faults (TypeError) on null and
undefined, yields the field on an object carrying it, and yields undefined
on an object without the field and on every other value. -/
def jsGetField : JsValue → String → Option JsValue
  | .undefined, _ => none
  | .null, _ => none
  | .obj fields, k =>
      some (match fields.lookup k with
            | some v => v
            | none => .undefined)
  | _, _ => some .undefined

/-- JavaScript truthiness, as used by the `||` fallback and the `if`
conditions in the source. -/
def truthy : JsValue → Bool
  | .undefined => false
  | .null => false
  | .bool b => b
  | .num n => n != 0
  | .str s => s != ""
  | .arr _ => true
  | .obj _ => true

/-- JavaScript string coercion, applied by the `Error` constructor to its
message argument.  The classifier only ever passes strings here in the
scenarios the claims cover; the non-string cases follow the standard
coercions (the array case is an abbreviation of the elementwise join, which
no claim exercises). -/
def jsToString : JsValue → String
  | .undefined => "undefined"
  | .null => "null"
  | .bool true => "true"
  | .bool false => "false"
  | .num n => toString n
  | .str s => s
  | .arr _ => ""
  | .obj _ => "[object Object]"

/-- Description of the TypeError raised by a faulting property access.  The
exact wording is runtime-dependent; this fixed shape stands for it. -/
def typeErrorMessage (v : JsValue) (field : String) : String :=
  "Cannot read properties of " ++ jsToString v ++ " (reading " ++ field ++ ")"

/-- The slice of an axios response the code reads: status, statusText and
the deserialized JSON body. -/
structure AxiosResponse where
  status : Nat
  statusText : String
  data : JsValue

/-- The typed error class of the library (source lines 9-25): a message, a
classification code, and an optional attached upstream response. -/
structure VOEError where
  message : String
  code : String
  response : Option AxiosResponse

/-- A thrown JavaScript error as the catch blocks observe it: its message,
whether a response object is attached, and whether a request object is
attached (axios sets both fields on transport errors; other errors, a
`VOEError` or a TypeError included, carry neither). -/
structure JsError where
  message : String
  response : Option AxiosResponse
  request : Bool

/-- Outcome of the underlying HTTP transport for one request: the server
answered with a success status; the server answered with an error status
(axios rejects, response and request both attached); the request went out
but no response arrived (request attached, no response); or the request
could not be constructed or sent at all (neither attached). -/
inductive TransportOutcome where
  | success (resp : AxiosResponse)
  | httpError (resp : AxiosResponse) (message : String)
  | noResponse (message : String)
  | setupError (message : String)

/-- The three-way error classification.  This exact branch structure occurs
twice in the source, textually identical: in the response interceptor
(lines 77-92) and in the catch block of `requestWithErrorHandling` (lines
280-296):
if error.response is set, throw a `VOEError` with message
`error.response.data.message || "API request failed"`, code API_ERROR, and
the response attached; otherwise if error.request is set, throw
NETWORK_ERROR with the fixed message; otherwise throw REQUEST_ERROR with
the caught error's own message.  The field access `error.response.data
.message` is unguarded, so it faults (result `.error`) when the body is
null or undefined. -/
def classify (e : JsError) : Except String VOEError :=
  match e.response with
  | some resp =>
      match jsGetField resp.data "message" with
      | none => .error (typeErrorMessage resp.data "message")
      | some m =>
          .ok ⟨if truthy m then jsToString m else "API request failed",
               "API_ERROR", some resp⟩
  | none =>
      if e.request then
        .ok ⟨"Network error", "NETWORK_ERROR", none⟩
      else
        .ok ⟨e.message, "REQUEST_ERROR", none⟩

/-- A VOEError caught by an outer catch block, seen through the JsError
shape: it carries its message and its (possibly absent) response, and has
no request field. -/
def voeAsJsError (v : VOEError) : JsError :=
  ⟨v.message, v.response, false⟩

/-- A TypeError caught by an outer catch block: a message, no response, no
request. -/
def typeErrorAsJsError (msg : String) : JsError :=
  ⟨msg, none, false⟩

/-- A call through the shared client, with the response interceptor of the
constructor applied (source lines 71-94): a fulfilled response is passed
through; a rejection is classified by the interceptor, and the resulting
`VOEError` (or, if the interceptor's own field access faulted, the
TypeError) propagates as the rejection seen by the caller of
`this.client.get`. -/
def runClient : TransportOutcome → Except JsError AxiosResponse
  | .success r => .ok r
  | .httpError r m =>
      match classify ⟨m, some r, true⟩ with
      | .ok v => .error (voeAsJsError v)
      | .error tm => .error (typeErrorAsJsError tm)
  | .noResponse m =>
      match classify ⟨m, none, true⟩ with
      | .ok v => .error (voeAsJsError v)
      | .error tm => .error (typeErrorAsJsError tm)
  | .setupError m =>
      match classify ⟨m, none, false⟩ with
      | .ok v => .error (voeAsJsError v)
      | .error tm => .error (typeErrorAsJsError tm)

/-- What a failed call ultimately throws to the library's caller: either a
typed `VOEError`, or a raw JavaScript error that escaped classification. -/
inductive Thrown where
  | voe (e : VOEError)
  | js (e : JsError)

/-- `requestWithErrorHandling` (source lines 273-298) applied to a request
made through the shared client: on fulfilment it returns `response.data`;
on rejection its catch block classifies whatever error reached it (which,
through the shared client, is already the interceptor's output) and throws
the resulting `VOEError`; if its own classification faults, the TypeError
escapes raw. -/
def jsonCall (t : TransportOutcome) : Except Thrown JsValue :=
  match runClient t with
  | .ok resp => .ok resp.data
  | .error e =>
      match classify e with
      | .ok v => .error (.voe v)
      | .error tm => .error (.js (typeErrorAsJsError tm))

/-- Whether a call result failed with a typed `VOEError` (as opposed to
succeeding or failing with a raw, unclassified error). -/
def isClassified : Except Thrown JsValue → Bool
  | .error (.voe _) => true
  | _ => false

/-- Whether jsonCall delivers only classified failures for a given
transport outcome. -/
def jsonCallClassified (t : TransportOutcome) : Bool :=
  match jsonCall t with
  | .error (.js _) => false
  | _ => true

/-- A query-parameter value as handed to axios: a string, a number, null,
or undefined (the value of an absent object property). -/
inductive QueryVal where
  | str (s : String)
  | num (n : Int)
  | null
  | undefined
deriving DecidableEq

/-- Axios default query serialization: parameters whose value is null or
undefined are omitted from the request; numbers are rendered in decimal. -/
def serializeQuery : List (String × QueryVal) → List (String × String)
  | [] => []
  | (k, .str s) :: rest => (k, s) :: serializeQuery rest
  | (k, .num n) :: rest => (k, toString n) :: serializeQuery rest
  | (_, .null) :: rest => serializeQuery rest
  | (_, .undefined) :: rest => serializeQuery rest

/-- The immutable client configuration set up by the constructor: the API
key, the fixed base URL, and the default query parameters installed on the
shared axios instance by `axios.create` (source lines 47-51). -/
structure ClientConfig where
  apiKey : String
  baseURL : String
  defaultParams : List (String × QueryVal)

/-- The `VOE` constructor (source lines 42-51): an absent or empty API key
is falsy, so construction throws
`VOEError("API key is required", "MISSING_API_KEY")`; otherwise the key is
stored and the shared client is created with the base URL and the key as a
default query parameter.  The constructor performs no network request:
`axios.create` only records configuration. -/
def mkVOE (apiKey : Option String) : Except VOEError ClientConfig :=
  match apiKey with
  | none => .error ⟨"API key is required", "MISSING_API_KEY", none⟩
  | some k =>
      if k = "" then .error ⟨"API key is required", "MISSING_API_KEY", none⟩
      else .ok ⟨k, "https://voe.sx/api", [("key", .str k)]⟩

/-- The optional filters of `listFiles` (source lines 212-220); an absent
field of the options object is undefined. -/
structure ListFilesOptions where
  page : Option Int
  per_page : Option Int
  fld_id : Option Int
  created : Option String
  name : Option String

/-- The JSON-endpoint operations of the client: every public method except
`uploadFile`, each with the parameters the source method takes. -/
inductive JsonOp where
  | getAccountInfo
  | getAccountStats
  | getUploadServer
  | remoteUpload (url : String)
  | getRemoteUploadList (id : Option Int)
  | cloneUpload (fileCode : String) (folderId : Int)
  | getFileInfo (fileCodes : String)
  | listFiles (opts : ListFilesOptions)
  | renameFile (fileCode : String) (title : String)
  | moveFile (fileCode : String) (folderId : Int)
  | deleteFile (fileCode : String)

/-- An option-typed numeric field passed as a query value: present gives
the number, absent gives undefined. -/
def optNum : Option Int → QueryVal
  | some n => .num n
  | none => .undefined

/-- An option-typed string field passed as a query value. -/
def optStr : Option String → QueryVal
  | some s => .str s
  | none => .undefined

/-- The request path of each JSON-endpoint operation, as in the source. -/
def opPath : JsonOp → String
  | .getAccountInfo => "/account/info"
  | .getAccountStats => "/account/stats"
  | .getUploadServer => "/upload/server"
  | .remoteUpload _ => "/upload/url"
  | .getRemoteUploadList _ => "/upload/url/list"
  | .cloneUpload _ _ => "/file/clone"
  | .getFileInfo _ => "/file/info"
  | .listFiles _ => "/file/list"
  | .renameFile _ _ => "/file/rename"
  | .moveFile _ _ => "/file/move"
  | .deleteFile _ => "/file/delete"

/-- The per-request query parameters each JSON-endpoint operation passes to
`this.client.get`, exactly as the source builds them (`getRemoteUploadList`
passes `id` with default value null; `listFiles` passes the options object
whose absent fields are undefined). -/
def opParams : JsonOp → List (String × QueryVal)
  | .getAccountInfo => []
  | .getAccountStats => []
  | .getUploadServer => []
  | .remoteUpload url => [("url", .str url)]
  | .getRemoteUploadList id =>
      [("id", match id with
              | some n => .num n
              | none => .null)]
  | .cloneUpload fc fld => [("file_code", .str fc), ("fld_id", .num fld)]
  | .getFileInfo codes => [("file_code", .str codes)]
  | .listFiles o =>
      [("page", optNum o.page), ("per_page", optNum o.per_page),
       ("fld_id", optNum o.fld_id), ("created", optStr o.created),
       ("name", optStr o.name)]
  | .renameFile fc t => [("file_code", .str fc), ("title", .str t)]
  | .moveFile fc fld => [("file_code", .str fc), ("fld_id", .num fld)]
  | .deleteFile fc => [("file_code", .str fc)]

/-- A request as the shared client issues it: base URL, path, method, and
the query parameters after axios merges the instance defaults (the API
key) with the per-request parameters. -/
structure HttpRequest where
  baseURL : String
  path : String
  method : String
  params : List (String × QueryVal)

/-- The outgoing request of a JSON-endpoint operation: all of them are GET
requests through the shared client, so the default parameters (the API
key) are merged with the parameters of the operation. -/
def jsonOpRequest (cfg : ClientConfig) (op : JsonOp) : HttpRequest :=
  ⟨cfg.baseURL, opPath op, "get", cfg.defaultParams ++ opParams op⟩

/-- File content, as an opaque byte sequence. -/
abbrev Buffer := List Nat

/-- The request issued by a direct file upload: URL, method, the multipart
form fields, headers, and the fact that it does not go through the shared
client. -/
structure UploadRequest where
  url : String
  method : String
  form : List (String × Buffer)
  headers : List (String × String)
  viaSharedClient : Bool

/-- The request `uploadFile` builds (source lines 138-143): a bare
`axios.post(uploadServer, formData, multipart header)` with the file
appended under the form field "file".  Bare axios carries neither the base
URL nor the default parameters nor the interceptors of the shared
client. -/
def mkUploadRequest (uploadServer : String) (file : Buffer) : UploadRequest :=
  ⟨uploadServer, "post", [("file", file)],
   [("Content-Type", "multipart/form-data")], false⟩

/-- The result `uploadFile` delivers (source lines 134-149): on success the
response body is returned verbatim; on failure the catch block logs and
rethrows the caught error unchanged, so the raw transport error reaches
the caller without classification. -/
def uploadResult : TransportOutcome → Except Thrown JsValue
  | .success r => .ok r.data
  | .httpError r m => .error (.js ⟨m, some r, true⟩)
  | .noResponse m => .error (.js ⟨m, none, true⟩)
  | .setupError m => .error (.js ⟨m, none, false⟩)

/-- `uploadFile` (source lines 134-149): the request it puts on the wire
and the result it delivers for a given transport outcome. -/
def uploadFile (uploadServer : String) (file : Buffer)
    (t : TransportOutcome) : UploadRequest × Except Thrown JsValue :=
  (mkUploadRequest uploadServer file, uploadResult t)

/-- `getUploadServer` (source lines 121-126): a JSON-endpoint call whose
fulfilled body is unwrapped through `data.result`; the unwrapping happens
outside any try block, so a faulting access would escape raw. -/
def getUploadServerCall (t : TransportOutcome) : Except Thrown JsValue :=
  match jsonCall t with
  | .error e => .error e
  | .ok d =>
      match jsGetField d "result" with
      | some v => .ok v
      | none => .error (.js (typeErrorAsJsError (typeErrorMessage d "result")))

/-- The serialized form of one optional numeric query parameter: present
values appear in decimal, absent values are omitted. -/
def onum (k : String) : Option Int → List (String × String)
  | some n => [(k, toString n)]
  | none => []

/-- The serialized form of one optional string query parameter. -/
def ostr (k : String) : Option String → List (String × String)
  | some s => [(k, s)]
  | none => []

/-- A JSON-endpoint operation end to end: the shared pipeline, plus the
envelope unwrapping that `getUploadServer` alone performs. -/
def runJsonOp : JsonOp → TransportOutcome → Except Thrown JsValue
  | .getUploadServer, t => getUploadServerCall t
  | .getAccountInfo, t => jsonCall t
  | .getAccountStats, t => jsonCall t
  | .remoteUpload _, t => jsonCall t
  | .getRemoteUploadList _, t => jsonCall t
  | .cloneUpload _ _, t => jsonCall t
  | .getFileInfo _, t => jsonCall t
  | .listFiles _, t => jsonCall t
  | .renameFile _ _, t => jsonCall t
  | .moveFile _ _, t => jsonCall t
  | .deleteFile _, t => jsonCall t

/-- C2: constructing the client fails with the typed MISSING_API_KEY error
exactly when the API key argument is absent or the empty string, and
succeeds for every non-empty key, storing that key.  Construction is
modelled without any transport outcome because the constructor issues no
network request. -/
theorem mkVOE_missing_key :
    ∀ k : Option String,
      (mkVOE k = .error ⟨"API key is required", "MISSING_API_KEY", none⟩
        ↔ (k = none ∨ k = some ""))
      ∧ ∀ s : String, s ≠ "" →
          ∃ cfg : ClientConfig, mkVOE (some s) = .ok cfg ∧ cfg.apiKey = s := by
  intro k
  constructor
  · cases k with
    | none => simp [mkVOE]
    | some s =>
        by_cases hs : s = "" <;> simp [mkVOE, hs]
  · intro s hs
    exact ⟨⟨s, "https://voe.sx/api", [("key", .str s)]⟩, by simp [mkVOE, hs], rfl⟩

/-- Witness for C2 at concrete keys: the empty key fails with
MISSING_API_KEY and a concrete non-empty key succeeds. -/
theorem mkVOE_missing_key_witness :
    (mkVOE (some "") = .error ⟨"API key is required", "MISSING_API_KEY", none⟩
      ↔ (some "" = none ∨ some "" = some ""))
    ∧ ∃ cfg : ClientConfig, mkVOE (some "abc123") = .ok cfg ∧ cfg.apiKey = "abc123" :=
  ⟨(mkVOE_missing_key (some "")).1,
   (mkVOE_missing_key (some "")).2 "abc123" (by decide)⟩

/-- C6: getUploadServer, given a fulfilled upstream reply whose JSON body
is the envelope with a result field holding s, returns exactly the string
s. -/
theorem getUploadServer_unwraps :
    ∀ (st : Nat) (sx : String) (s : String),
      getUploadServerCall (.success ⟨st, sx, .obj [("result", .str s)]⟩)
        = .ok (.str s) := by
  intro st sx s
  rfl

/-- C7: uploadFile posts to the given upload server URL itself, outside the
shared API-key-bearing client, with a multipart form carrying the given
buffer under the field "file", and on success returns the upstream body
verbatim. -/
theorem uploadFile_request_shape :
    ∀ (s : String) (f : Buffer) (r : AxiosResponse),
      (uploadFile s f (.success r)).1.url = s
      ∧ (uploadFile s f (.success r)).1.viaSharedClient = false
      ∧ (uploadFile s f (.success r)).1.form = [("file", f)]
      ∧ (uploadFile s f (.success r)).1.method = "post"
      ∧ (uploadFile s f (.success r)).1.headers
          = [("Content-Type", "multipart/form-data")]
      ∧ (uploadFile s f (.success r)).2 = .ok r.data := by
  intro s f r
  exact ⟨rfl, rfl, rfl, rfl, rfl, rfl⟩

/-- C9: when the upstream error body carries a message field whose value is
the empty string, the truthiness test fails and every JSON-endpoint
operation delivers the API_ERROR failure with the generic fallback message
rather than the provided empty message. -/
theorem empty_message_fallback :
    ∀ (op : JsonOp) (st : Nat) (sx : String) (m0 : String),
      runJsonOp op (.httpError ⟨st, sx, .obj [("message", .str "")]⟩ m0)
        = .error (.voe ⟨"API request failed", "API_ERROR",
            some ⟨st, sx, .obj [("message", .str "")]⟩⟩) := by
  intro op st sx m0
  cases op <;> rfl

/-- C1 counterexample: a concrete HTTP-error failure of uploadFile reaches
the caller as the raw transport error, not as a VOEError: the upload path
applies no classification, contradicting the claim that every uploadFile
failure is the same typed normalized failure the JSON-endpoint path
produces. -/
theorem uploadFile_unclassified_cex :
    (uploadFile "https://up.example.com/x" [1, 2, 3]
        (.httpError ⟨500, "Internal Server Error", .null⟩
          "Request failed with status code 500")).2
      = .error (.js ⟨"Request failed with status code 500",
          some ⟨500, "Internal Server Error", .null⟩, true⟩)
    ∧ isClassified (uploadFile "https://up.example.com/x" [1, 2, 3]
        (.httpError ⟨500, "Internal Server Error", .null⟩
          "Request failed with status code 500")).2 = false :=
  ⟨rfl, rfl⟩

/-- C1 (amended): uploadFile logs and rethrows every failure unchanged, so
the caller receives the raw underlying error with none of the three-way
classification applied; only the JSON-endpoint pipeline classifies, and
that pipeline never lets an unclassified error reach the caller. -/
theorem uploadFile_rethrows_raw :
    ∀ (s : String) (f : Buffer) (r : AxiosResponse) (m : String),
      (uploadFile s f (.httpError r m)).2 = .error (.js ⟨m, some r, true⟩)
      ∧ (uploadFile s f (.noResponse m)).2 = .error (.js ⟨m, none, true⟩)
      ∧ (uploadFile s f (.setupError m)).2 = .error (.js ⟨m, none, false⟩)
      ∧ isClassified (uploadFile s f (.httpError r m)).2 = false
      ∧ ∀ t : TransportOutcome, jsonCallClassified t = true := by
  intro s f r m
  refine ⟨rfl, rfl, rfl, rfl, ?_⟩
  intro t
  cases t with
  | success r0 => rfl
  | httpError r0 m0 =>
      rcases r0 with ⟨st, sx, d⟩
      cases d <;> rfl
  | noResponse m0 => rfl
  | setupError m0 => rfl

/-- C3: every JSON-endpoint operation of a successfully constructed client,
under every parameter combination, issues its request with the configured
API key as the query parameter "key", and that key is non-empty. -/
theorem jsonOp_carries_key (k : Option String) (cfg : ClientConfig)
    (op : JsonOp) (h : mkVOE k = .ok cfg) :
    cfg.apiKey ≠ ""
    ∧ ("key", cfg.apiKey) ∈ serializeQuery (jsonOpRequest cfg op).params := by
  cases k with
  | none => simp [mkVOE] at h
  | some s =>
      by_cases hs : s = ""
      · simp [mkVOE, hs] at h
      · simp [mkVOE, hs] at h
        subst h
        exact ⟨hs, List.mem_cons_self _ _⟩

/-- Witness for C3: a concrete client and operation carry the key. -/
theorem jsonOp_carries_key_witness :
    let cfg : ClientConfig :=
      ⟨"secret", "https://voe.sx/api", [("key", .str "secret")]⟩
    cfg.apiKey ≠ ""
    ∧ ("key", cfg.apiKey)
        ∈ serializeQuery (jsonOpRequest cfg .getAccountInfo).params :=
  jsonOp_carries_key (some "secret")
    ⟨"secret", "https://voe.sx/api", [("key", .str "secret")]⟩
    .getAccountInfo rfl

/-- C5: evaluation of the pipeline at the failing input.  Each classifier
call site does evaluate its rules in the order responded, sent, not-sent:
in isolation a sent-but-unanswered failure classifies as NETWORK_ERROR
with the fixed message and no response, and a could-not-send failure as
REQUEST_ERROR carrying the underlying message.  But end to end a
sent-but-unanswered request reaches the caller as REQUEST_ERROR: the
interceptor throws the NETWORK_ERROR VOEError, which carries neither a
response nor a request field, so the catch block of
requestWithErrorHandling re-classifies it through its third rule. -/
theorem network_error_reclassified :
    classify ⟨"timeout of 10000ms exceeded", none, true⟩
      = .ok ⟨"Network error", "NETWORK_ERROR", none⟩
    ∧ classify ⟨"boom", none, false⟩ = .ok ⟨"boom", "REQUEST_ERROR", none⟩
    ∧ runJsonOp .getAccountInfo (.noResponse "timeout of 10000ms exceeded")
        = .error (.voe ⟨"Network error", "REQUEST_ERROR", none⟩)
    ∧ runJsonOp .getAccountInfo (.setupError "boom")
        = .error (.voe ⟨"boom", "REQUEST_ERROR", none⟩) :=
  ⟨rfl, rfl, rfl, rfl⟩

/-- C4 counterexample: an upstream 400 reply whose body carries the message
field with the value of the empty string yields an API_ERROR failure whose
message is the fallback, not that (empty) provided value, refuting the
claim that the failure message is exactly the value of the message field
for every value. -/
theorem api_error_empty_message_cex :
    runJsonOp .getAccountInfo
        (.httpError ⟨400, "Bad Request", .obj [("message", .str "")]⟩
          "Request failed with status code 400")
      = .error (.voe ⟨"API request failed", "API_ERROR",
          some ⟨400, "Bad Request", .obj [("message", .str "")]⟩⟩)
    ∧ "API request failed" ≠ "" :=
  ⟨rfl, by decide⟩

/-- C4 (amended): for every JSON-endpoint call answered with an error
status, a body whose message field holds a non-empty (truthy) string X
yields the API_ERROR failure with message exactly X and the upstream
response attached with its status; a body with no message field yields the
API_ERROR failure with the fixed fallback message and the response
attached. -/
theorem api_error_classification (op : JsonOp) (st : Nat) (sx : String)
    (X m0 : String) (hX : X ≠ "") :
    runJsonOp op (.httpError ⟨st, sx, .obj [("message", .str X)]⟩ m0)
      = .error (.voe ⟨X, "API_ERROR",
          some ⟨st, sx, .obj [("message", .str X)]⟩⟩)
    ∧ ∀ fs : List (String × JsValue), fs.lookup "message" = none →
        runJsonOp op (.httpError ⟨st, sx, .obj fs⟩ m0)
          = .error (.voe ⟨"API request failed", "API_ERROR",
              some ⟨st, sx, .obj fs⟩⟩) := by
  constructor
  · cases op <;>
      simp [runJsonOp, getUploadServerCall, jsonCall, runClient, classify,
        jsGetField, truthy, jsToString, voeAsJsError, List.lookup, hX]
  · intro fs hfs
    cases op <;>
      simp [runJsonOp, getUploadServerCall, jsonCall, runClient, classify,
        jsGetField, truthy, jsToString, voeAsJsError, hfs]

/-- Witness for C4 at concrete inputs: a 403 reply with a non-empty message
surfaces that message, and a 403 reply with an empty body object surfaces
the fallback. -/
theorem api_error_classification_witness :
    runJsonOp .getAccountInfo
        (.httpError ⟨403, "Forbidden", .obj [("message", .str "Invalid API key")]⟩
          "Request failed with status code 403")
      = .error (.voe ⟨"Invalid API key", "API_ERROR",
          some ⟨403, "Forbidden", .obj [("message", .str "Invalid API key")]⟩⟩)
    ∧ runJsonOp .getAccountInfo
        (.httpError ⟨403, "Forbidden", .obj []⟩
          "Request failed with status code 403")
      = .error (.voe ⟨"API request failed", "API_ERROR",
          some ⟨403, "Forbidden", .obj []⟩⟩) :=
  ⟨(api_error_classification .getAccountInfo 403 "Forbidden" "Invalid API key"
      "Request failed with status code 403" (by decide)).1,
   (api_error_classification .getAccountInfo 403 "Forbidden" "Invalid API key"
      "Request failed with status code 403" (by decide)).2 [] rfl⟩

/-- C8: the query of a listFiles request consists of exactly the API key
and the filters that are present; every absent filter is omitted.  In
particular an empty options object contributes no filter parameters, and
options carrying only page 2 and per_page 5 contribute exactly those
two. -/
theorem listFiles_query (k : String) (cfg : ClientConfig)
    (opts : ListFilesOptions) (h : mkVOE (some k) = .ok cfg) :
    serializeQuery (jsonOpRequest cfg (.listFiles opts)).params
      = ("key", k)
        :: (onum "page" opts.page ++ onum "per_page" opts.per_page
            ++ onum "fld_id" opts.fld_id ++ ostr "created" opts.created
            ++ ostr "name" opts.name) := by
  by_cases hk : k = ""
  · simp [mkVOE, hk] at h
  · simp [mkVOE, hk] at h
    subst h
    rcases opts with ⟨p, pp, fl, c, n⟩
    cases p <;> cases pp <;> cases fl <;> cases c <;> cases n <;> rfl

/-- Witness for C8: the concrete client issues listFiles with empty options
carrying only the key, and with page 2 and per_page 5 carrying exactly
those two filters. -/
theorem listFiles_query_witness :
    serializeQuery (jsonOpRequest
        ⟨"secret", "https://voe.sx/api", [("key", .str "secret")]⟩
        (.listFiles ⟨none, none, none, none, none⟩)).params
      = [("key", "secret")]
    ∧ serializeQuery (jsonOpRequest
        ⟨"secret", "https://voe.sx/api", [("key", .str "secret")]⟩
        (.listFiles ⟨some 2, some 5, none, none, none⟩)).params
      = [("key", "secret"), ("page", "2"), ("per_page", "5")] :=
  ⟨listFiles_query "secret" _ ⟨none, none, none, none, none⟩ rfl,
   listFiles_query "secret" _ ⟨some 2, some 5, none, none, none⟩ rfl⟩

/-- C10 counterexample: with a null error body the interceptor's field
access does fault, but the resulting TypeError is caught by the catch
block of requestWithErrorHandling and wrapped through its third rule, so
the error reaching the caller is a typed VOEError (code REQUEST_ERROR)
after all, refuting the claim that it is not the promised typed
VOEError. -/
theorem null_body_cex :
    runJsonOp .getAccountInfo
        (.httpError ⟨500, "Internal Server Error", .null⟩
          "Request failed with status code 500")
      = .error (.voe ⟨typeErrorMessage .null "message", "REQUEST_ERROR", none⟩)
    ∧ isClassified (runJsonOp .getAccountInfo
        (.httpError ⟨500, "Internal Server Error", .null⟩
          "Request failed with status code 500")) = true :=
  ⟨rfl, rfl⟩

/-- C10 (amended): the classification branch reads the message field of the
error body unguarded, so with a null body the classifier itself faults
(TypeError); in the composed pipeline that fault, raised in the
interceptor, is caught by the per-call handler and surfaced as a VOEError
with code REQUEST_ERROR carrying the TypeError description and no attached
response, instead of the API_ERROR with the response; a non-null non-object
body (for example a string) does not fault: the access yields undefined
and the generic API_ERROR fallback applies with the response attached. -/
theorem null_body_behavior :
    ∀ (op : JsonOp) (st : Nat) (sx : String) (m0 : String),
      classify ⟨m0, some ⟨st, sx, .null⟩, true⟩
        = .error (typeErrorMessage .null "message")
      ∧ runJsonOp op (.httpError ⟨st, sx, .null⟩ m0)
          = .error (.voe ⟨typeErrorMessage .null "message",
              "REQUEST_ERROR", none⟩)
      ∧ ∀ s : String,
          runJsonOp op (.httpError ⟨st, sx, .str s⟩ m0)
            = .error (.voe ⟨"API request failed", "API_ERROR",
                some ⟨st, sx, .str s⟩⟩) := by
  intro op st sx m0
  refine ⟨rfl, ?_, ?_⟩
  · cases op <;> rfl
  · intro s
    cases op <;> rfl

end Voe
